import Mathlib

/-
Shallow embedding of `src/web_app.py`: a Flask HTTP service exposing
`POST /user` (`create_user`), `GET /user/<int:user_id>` (`get_user`) and
`GET /users` (`get_all_users`) over a PostgreSQL `users` table.

Modelling conventions:
* JSON values are the inductive `Json`; JSON numbers are modelled as integers
  (no claim involves fractional numbers).
* Python semantics of the operations the handlers use are given explicitly:
  truthiness (`pyTruthy`), the `in` membership test (`pyContains`, raising
  `TypeError` on non-container operands), subscripting (`pyGetItem`), and
  `str.strip()` (`pyStrip`, raising `AttributeError` on non-strings; the
  whitespace set is modelled by `Char.isWhitespace`, a subset of Python's,
  which is irrelevant to the claims).
* `request.get_json()` is modelled by the input `GetJsonResult`: flask raises
  `BadRequest` on a malformed JSON body (`raises`), and otherwise returns the
  parsed value or `None` (`returns`).
* `request.args.get(key, default, type=int)` follows werkzeug `MultiDict.get`:
  a missing key gives the default, and a present value on which `int(...)`
  raises `ValueError` also gives the default (`args_get_int`).
* The database is an external collaborator holding the `users` table: a `Db`
  carries the stored rows plus the auto-increment counter `nextId`.
  `created_at` is carried as the already-rendered ISO-8601 string the database
  clock assigned (`datetime.isoformat` is the identity rendering on it).
  Each statement either succeeds atomically or raises `psycopg2.Error`,
  controlled by the fault input `dbOk`; PostgreSQL rejects negative
  LIMIT/OFFSET values with an error, which `dbSelectPage` reflects.
* Each route's `try ... except Exception: return 500` wrapper is the outer
  `match` on the `Except PyErr` result of the handler body.
-/

inductive Json where
  | null
  | bool (b : Bool)
  | num (n : Int)
  | str (s : String)
  | arr (elems : List Json)
  | obj (fields : List (String × Json))

/-- Python exceptions that the handler bodies can raise; all of them are
caught by the route-level `except Exception` and turned into a 500. -/
inductive PyErr where
  | badRequest
  | typeError
  | keyError
  | attributeError
  | dbError
deriving DecidableEq

/-- Python truthiness (`bool(x)`) of a parsed-JSON value. -/
def pyTruthy : Json → Bool
  | .null => false
  | .bool b => b
  | .num n => n != 0
  | .str s => s != ""
  | .arr elems => !elems.isEmpty
  | .obj fields => !fields.isEmpty

/-- First binding of `key` in a parsed JSON object's field list
(a Python dict has unique keys, so first-match equals dict lookup). -/
def pyLookup (fields : List (String × Json)) (key : String) : Option Json :=
  (fields.find? (fun kv => kv.1 == key)).map (fun kv => kv.2)

/-- Python `key in data`: key test on dicts, element test on lists,
substring test on strings, `TypeError` on the remaining types. -/
def pyContains (key : String) : Json → Except PyErr Bool
  | .obj fields => .ok (pyLookup fields key).isSome
  | .arr elems => .ok (elems.any (fun e => match e with | .str s => s == key | _ => false))
  | .str s => .ok (key == "" || (s.splitOn key).length > 1)
  | _ => .error .typeError

/-- Python `data[key]`: dict lookup (`KeyError` when absent), `TypeError`
on a string subscript into any non-dict value. -/
def pyGetItem (data : Json) (key : String) : Except PyErr Json :=
  match data with
  | .obj fields =>
    match pyLookup fields key with
    | some v => .ok v
    | none => .error .keyError
  | _ => .error .typeError

/-- Remove leading and trailing whitespace from a string (Python `str.strip()`). -/
def pyStripStr (s : String) : String :=
  ⟨((s.data.dropWhile Char.isWhitespace).reverse.dropWhile Char.isWhitespace).reverse⟩

/-- Python `v.strip()`: only strings have the `strip` attribute;
every other parsed-JSON value raises `AttributeError`. -/
def pyStrip : Json → Except PyErr String
  | .str s => .ok (pyStripStr s)
  | _ => .error .attributeError

/-- Python `int(s)`: surrounding whitespace, an optional sign, then decimal
digits; anything else raises `ValueError` (modelled as `none`). -/
def pyDigits? (cs : List Char) : Option Nat :=
  if cs.isEmpty then none
  else if cs.all Char.isDigit then
    some (cs.foldl (fun a c => a * 10 + (c.toNat - 48)) 0)
  else none

def pyInt? (s : String) : Option Int :=
  match (pyStripStr s).data with
  | '-' :: rest => (pyDigits? rest).map (fun n => -(n : Int))
  | '+' :: rest => (pyDigits? rest).map (fun n => (n : Int))
  | cs => (pyDigits? cs).map (fun n => (n : Int))

/-- werkzeug `MultiDict.get(key, default, type=int)` over query parameters:
the default when the key is absent, and also when `int(...)` raises. -/
def args_get_int (value : Option String) (default : Int) : Int :=
  match value with
  | none => default
  | some s =>
    match pyInt? s with
    | some n => n
    | none => default

/-- Drop a present query-parameter value that `int(...)` cannot parse.
werkzeug's typed `get` treats such a value exactly like an absent parameter
(both give the default), so replacing it by `none` is the claim's
"behaves as if the parameter were absent". -/
def dropUnparseable (value : Option String) : Option String :=
  match value with
  | none => none
  | some s =>
    match pyInt? s with
    | some _ => some s
    | none => none

/-- A row of the `users` table; `created_at` is the ISO-8601 rendering of the
timestamp the database assigned. -/
structure UserRow where
  id : Int
  first_name : String
  last_name : String
  created_at : String
deriving DecidableEq

/-- The `users` table: stored rows plus the auto-increment counter backing
the `id` column. -/
structure Db where
  rows : List UserRow
  nextId : Int
deriving DecidableEq

/-- INSERT INTO users (first_name, last_name) VALUES (%s, %s)
RETURNING id, first_name, last_name, created_at — atomic single statement:
on failure (`dbOk = false`) it raises and the table is unchanged. `now` is the
database clock's ISO-8601 timestamp for `created_at`. -/
def dbInsertUser (db : Db) (first_name last_name now : String) (dbOk : Bool) :
    Except PyErr (UserRow × Db) :=
  if dbOk then
    let row : UserRow := ⟨db.nextId, first_name, last_name, now⟩
    .ok (row, ⟨db.rows ++ [row], db.nextId + 1⟩)
  else .error .dbError

/-- SELECT id, first_name, last_name, created_at FROM users WHERE id = %s,
followed by `fetchone()`. -/
def dbSelectById (db : Db) (user_id : Int) (dbOk : Bool) :
    Except PyErr (Option UserRow) :=
  if dbOk then .ok (db.rows.find? (fun r => r.id == user_id)) else .error .dbError

/-- ORDER BY id: the stored rows sorted by ascending `id`. -/
def rowLe (a b : UserRow) : Prop := a.id ≤ b.id

instance : DecidableRel rowLe := fun a b => inferInstanceAs (Decidable (a.id ≤ b.id))

instance : IsTotal UserRow rowLe := ⟨fun a b => Int.le_total a.id b.id⟩

instance : IsTrans UserRow rowLe := ⟨fun _ _ _ => Int.le_trans⟩

def sortById (rows : List UserRow) : List UserRow :=
  List.insertionSort rowLe rows

/-- SELECT id, first_name, last_name, created_at FROM users ORDER BY id
LIMIT %s OFFSET %s, followed by `fetchall()`. PostgreSQL raises
"LIMIT must not be negative" / "OFFSET must not be negative" on negative
parameters. -/
def dbSelectPage (db : Db) (lim off : Int) (dbOk : Bool) :
    Except PyErr (List UserRow) :=
  if dbOk then
    if lim < 0 ∨ off < 0 then .error .dbError
    else .ok (((sortById db.rows).drop off.toNat).take lim.toNat)
  else .error .dbError

/-- The JSON object each route builds from a fetched row:
`{'id': ..., 'first_name': ..., 'last_name': ..., 'created_at': ....isoformat()}`. -/
def rowJson (u : UserRow) : Json :=
  Json.obj [("id", Json.num u.id), ("first_name", Json.str u.first_name),
            ("last_name", Json.str u.last_name), ("created_at", Json.str u.created_at)]

structure HttpResponse where
  status : Nat
  body : Json

def errRequired : Json := Json.obj [("error", Json.str "first_name and last_name are required")]

def errEmpty : Json := Json.obj [("error", Json.str "first_name and last_name cannot be empty")]

def errInternal : Json := Json.obj [("error", Json.str "Internal server error")]

def errNotFound : Json := Json.obj [("error", Json.str "User not found")]

/-- Outcome of `request.get_json()`: flask raises `BadRequest` on a malformed
JSON body; otherwise the call returns the parsed value (or `None`). -/
inductive GetJsonResult where
  | raises
  | returns (v : Option Json)

/-- Body of `create_user` (web_app.py lines 53-88), inside the `try`.
The guard `if not data or 'first_name' not in data or 'last_name' not in data`
is expanded into its short-circuit cascade; each `in` test can raise.
Then `first_name = data['first_name'].strip()`,
`last_name = data['last_name'].strip()` (each step can raise), the emptiness
check, and the INSERT. -/
def create_user_body (gj : GetJsonResult) (db : Db) (now : String) (dbOk : Bool) :
    Except PyErr (HttpResponse × Db) :=
  match gj with
  | .raises => .error .badRequest
  | .returns none => .ok (⟨400, errRequired⟩, db)
  | .returns (some data) =>
    if !pyTruthy data then .ok (⟨400, errRequired⟩, db)
    else match pyContains "first_name" data with
    | .error e => .error e
    | .ok false => .ok (⟨400, errRequired⟩, db)
    | .ok true =>
      match pyContains "last_name" data with
      | .error e => .error e
      | .ok false => .ok (⟨400, errRequired⟩, db)
      | .ok true =>
        match pyGetItem data "first_name" with
        | .error e => .error e
        | .ok fnj =>
          match pyStrip fnj with
          | .error e => .error e
          | .ok first_name =>
            match pyGetItem data "last_name" with
            | .error e => .error e
            | .ok lnj =>
              match pyStrip lnj with
              | .error e => .error e
              | .ok last_name =>
                if first_name = "" ∨ last_name = "" then
                  .ok (⟨400, errEmpty⟩, db)
                else
                  match dbInsertUser db first_name last_name now dbOk with
                  | .error e => .error e
                  | .ok (user, db2) => .ok (⟨201, rowJson user⟩, db2)

/-- `POST /user`: `create_user_body` under the route's
`except Exception: return 500`. All raise points precede the commit (the
INSERT itself is atomic), so the table is unchanged on every error path. -/
def create_user (gj : GetJsonResult) (db : Db) (now : String) (dbOk : Bool) :
    HttpResponse × Db :=
  match create_user_body gj db now dbOk with
  | .ok r => r
  | .error _ => (⟨500, errInternal⟩, db)

/-- Body of `get_user` (web_app.py lines 97-121), inside the `try`. -/
def get_user_body (user_id : Int) (db : Db) (dbOk : Bool) :
    Except PyErr HttpResponse :=
  match dbSelectById db user_id dbOk with
  | .error e => .error e
  | .ok none => .ok ⟨404, errNotFound⟩
  | .ok (some user) => .ok ⟨200, rowJson user⟩

/-- `GET /user/<int:user_id>`: `get_user_body` under the route's
`except Exception: return 500`. The SELECT writes nothing, so the resulting
table state is returned alongside the response. -/
def get_user (user_id : Int) (db : Db) (dbOk : Bool) : HttpResponse × Db :=
  match get_user_body user_id db dbOk with
  | .ok r => (r, db)
  | .error _ => (⟨500, errInternal⟩, db)

/-- Body of `get_all_users` (web_app.py lines 130-159), inside the `try`:
`limit = request.args.get('limit', default=10, type=int)`,
`offset = request.args.get('offset', default=0, type=int)`, the paged SELECT,
then the envelope `{'users': [...], 'limit': limit, 'offset': offset}`. -/
def get_all_users_body (limitArg offsetArg : Option String) (db : Db) (dbOk : Bool) :
    Except PyErr HttpResponse :=
  let limit := args_get_int limitArg 10
  let offset := args_get_int offsetArg 0
  match dbSelectPage db limit offset dbOk with
  | .error e => .error e
  | .ok users =>
    .ok ⟨200, Json.obj [("users", Json.arr (users.map rowJson)),
                        ("limit", Json.num limit), ("offset", Json.num offset)]⟩

/-- `GET /users`: `get_all_users_body` under the route's
`except Exception: return 500`. -/
def get_all_users (limitArg offsetArg : Option String) (db : Db) (dbOk : Bool) :
    HttpResponse :=
  match get_all_users_body limitArg offsetArg db dbOk with
  | .ok r => r
  | .error _ => ⟨500, errInternal⟩

theorem fields_isEmpty_false_of_lookup {fields : List (String × Json)} {key : String}
    {v : Json} (h : pyLookup fields key = some v) : fields.isEmpty = false := by
  cases fields with
  | nil => simp [pyLookup] at h
  | cons a l => rfl

/-- A valid object body (both names present as strings, nonempty after
stripping) drives `create_user` to the INSERT: 201 with the new row when the
database is healthy, 500 with the table unchanged when it is not. -/
theorem create_user_valid_any (fields : List (String × Json)) (s1 s2 : String)
    (db : Db) (now : String) (dbOk : Bool)
    (h1 : pyLookup fields "first_name" = some (Json.str s1))
    (h2 : pyLookup fields "last_name" = some (Json.str s2))
    (h3 : pyStripStr s1 ≠ "") (h4 : pyStripStr s2 ≠ "") :
    create_user (.returns (some (Json.obj fields))) db now dbOk =
      if dbOk then
        (⟨201, rowJson ⟨db.nextId, pyStripStr s1, pyStripStr s2, now⟩⟩,
         ⟨db.rows ++ [⟨db.nextId, pyStripStr s1, pyStripStr s2, now⟩], db.nextId + 1⟩)
      else (⟨500, errInternal⟩, db) := by
  have hne : fields.isEmpty = false := fields_isEmpty_false_of_lookup h1
  cases dbOk <;>
    simp [create_user, create_user_body, pyTruthy, hne, pyContains, h1, h2,
          pyGetItem, pyStrip, dbInsertUser, h3, h4]

/-- Claim C1: a create request whose JSON body has both `first_name` and
`last_name` as strings that are non-empty after trimming gets a 201 whose
body carries the new `id`, the trimmed names and the ISO-8601 `created_at`,
and the inserted row stores the trimmed names. -/
theorem create_user_valid_creates_trimmed (fields : List (String × Json))
    (s1 s2 : String) (db : Db) (now : String)
    (h1 : pyLookup fields "first_name" = some (Json.str s1))
    (h2 : pyLookup fields "last_name" = some (Json.str s2))
    (h3 : pyStripStr s1 ≠ "") (h4 : pyStripStr s2 ≠ "") :
    create_user (.returns (some (Json.obj fields))) db now true =
      (⟨201, Json.obj [("id", Json.num db.nextId),
                       ("first_name", Json.str (pyStripStr s1)),
                       ("last_name", Json.str (pyStripStr s2)),
                       ("created_at", Json.str now)]⟩,
       ⟨db.rows ++ [⟨db.nextId, pyStripStr s1, pyStripStr s2, now⟩], db.nextId + 1⟩) := by
  simpa [rowJson] using create_user_valid_any fields s1 s2 db now true h1 h2 h3 h4

theorem create_user_valid_creates_trimmed_witness :
    create_user (.returns (some (Json.obj
        [("first_name", Json.str " Ada "), ("last_name", Json.str " Lovelace ")])))
      ⟨[], 1⟩ "2024-01-01T00:00:00" true =
      (⟨201, Json.obj [("id", Json.num 1),
                       ("first_name", Json.str "Ada"),
                       ("last_name", Json.str "Lovelace"),
                       ("created_at", Json.str "2024-01-01T00:00:00")]⟩,
       ⟨[⟨1, "Ada", "Lovelace", "2024-01-01T00:00:00"⟩], 2⟩) := by
  have h := create_user_valid_creates_trimmed
    [("first_name", Json.str " Ada "), ("last_name", Json.str " Lovelace ")]
    " Ada " " Lovelace " ⟨[], 1⟩ "2024-01-01T00:00:00" rfl rfl (by decide) (by decide)
  simpa using h

/-- Claim C6: if both names are present as strings but at least one is empty
after trimming, create responds 400 `{error: "first_name and last_name cannot
be empty"}` and the table is unchanged. -/
theorem create_user_empty_after_trim_400 (fields : List (String × Json))
    (s1 s2 : String) (db : Db) (now : String) (dbOk : Bool)
    (h1 : pyLookup fields "first_name" = some (Json.str s1))
    (h2 : pyLookup fields "last_name" = some (Json.str s2))
    (h3 : pyStripStr s1 = "" ∨ pyStripStr s2 = "") :
    create_user (.returns (some (Json.obj fields))) db now dbOk =
      (⟨400, errEmpty⟩, db) := by
  have hne : fields.isEmpty = false := fields_isEmpty_false_of_lookup h1
  rcases h3 with h3 | h3 <;>
    simp [create_user, create_user_body, pyTruthy, hne, pyContains, h1, h2,
          pyGetItem, pyStrip, h3]

theorem create_user_empty_after_trim_400_witness :
    create_user (.returns (some (Json.obj
        [("first_name", Json.str "   "), ("last_name", Json.str "Lovelace")])))
      ⟨[], 1⟩ "T" true = (⟨400, errEmpty⟩, ⟨[], 1⟩) :=
  create_user_empty_after_trim_400
    [("first_name", Json.str "   "), ("last_name", Json.str "Lovelace")]
    "   " "Lovelace" ⟨[], 1⟩ "T" true rfl rfl (Or.inl (by decide))

/-- Whether a parsed-JSON value is a Python `str`. -/
def Json.isStr : Json → Bool
  | .str _ => true
  | _ => false

theorem pyStrip_error_of_not_str {v : Json} (h : v.isStr = false) :
    pyStrip v = .error .attributeError := by
  cases v <;> simp [Json.isStr] at h ⊢ <;> rfl

/-- Claim C9: if both keys are present but at least one value is not a string,
`.strip()` raises `AttributeError`, caught by the generic handler: 500
`{error: "Internal server error"}` and no row inserted. -/
theorem create_user_nonstring_name_500 (fields : List (String × Json))
    (v1 v2 : Json) (db : Db) (now : String) (dbOk : Bool)
    (h1 : pyLookup fields "first_name" = some v1)
    (h2 : pyLookup fields "last_name" = some v2)
    (h3 : v1.isStr = false ∨ v2.isStr = false) :
    create_user (.returns (some (Json.obj fields))) db now dbOk =
      (⟨500, errInternal⟩, db) := by
  have hne : fields.isEmpty = false := fields_isEmpty_false_of_lookup h1
  rcases h3 with h3 | h3
  · simp [create_user, create_user_body, pyTruthy, hne, pyContains, h1, h2,
          pyGetItem, pyStrip_error_of_not_str h3]
  · cases hv1 : v1.isStr with
    | false =>
      simp [create_user, create_user_body, pyTruthy, hne, pyContains, h1, h2,
            pyGetItem, pyStrip_error_of_not_str hv1]
    | true =>
      cases v1 <;> simp [Json.isStr] at hv1
      cases v2 <;> simp [Json.isStr] at h3 <;>
        simp [create_user, create_user_body, pyTruthy, hne, pyContains, h1, h2,
              pyGetItem, pyStrip]

theorem create_user_nonstring_name_500_witness :
    create_user (.returns (some (Json.obj
        [("first_name", Json.null), ("last_name", Json.str "Lovelace")])))
      ⟨[], 1⟩ "T" true = (⟨500, errInternal⟩, ⟨[], 1⟩) :=
  create_user_nonstring_name_500
    [("first_name", Json.null), ("last_name", Json.str "Lovelace")]
    Json.null (Json.str "Lovelace") ⟨[], 1⟩ "T" true rfl rfl (Or.inl rfl)

/-- Claim C10: with valid names, the create result depends only on the
`first_name`/`last_name` lookups — two bodies agreeing on those two keys give
the same response and the same table, whatever other keys they carry. -/
theorem create_user_extra_keys_ignored (fields1 fields2 : List (String × Json))
    (s1 s2 : String) (db : Db) (now : String) (dbOk : Bool)
    (ha : pyLookup fields1 "first_name" = some (Json.str s1))
    (hb : pyLookup fields1 "last_name" = some (Json.str s2))
    (hc : pyLookup fields2 "first_name" = some (Json.str s1))
    (hd : pyLookup fields2 "last_name" = some (Json.str s2))
    (h3 : pyStripStr s1 ≠ "") (h4 : pyStripStr s2 ≠ "") :
    create_user (.returns (some (Json.obj fields1))) db now dbOk =
      create_user (.returns (some (Json.obj fields2))) db now dbOk := by
  rw [create_user_valid_any fields1 s1 s2 db now dbOk ha hb h3 h4,
      create_user_valid_any fields2 s1 s2 db now dbOk hc hd h3 h4]

theorem create_user_extra_keys_ignored_witness :
    create_user (.returns (some (Json.obj
        [("first_name", Json.str "Ada"), ("last_name", Json.str "Lovelace"),
         ("role", Json.str "admin"), ("age", Json.num 36)])))
      ⟨[], 1⟩ "T" true =
    create_user (.returns (some (Json.obj
        [("first_name", Json.str "Ada"), ("last_name", Json.str "Lovelace")])))
      ⟨[], 1⟩ "T" true :=
  create_user_extra_keys_ignored
    [("first_name", Json.str "Ada"), ("last_name", Json.str "Lovelace"),
     ("role", Json.str "admin"), ("age", Json.num 36)]
    [("first_name", Json.str "Ada"), ("last_name", Json.str "Lovelace")]
    "Ada" "Lovelace" ⟨[], 1⟩ "T" true rfl rfl rfl rfl (by decide) (by decide)

/-- Claim C7: fetching an id held by no stored row gives 404
`{error: "User not found"}` and leaves the stored rows untouched. -/
theorem get_user_not_found_404 (user_id : Int) (db : Db)
    (h : ∀ r ∈ db.rows, r.id ≠ user_id) :
    get_user user_id db true = (⟨404, errNotFound⟩, db) := by
  have hfind : db.rows.find? (fun r => r.id == user_id) = none := by
    apply List.find?_eq_none.mpr
    intro r hr
    simpa using h r hr
  simp [get_user, get_user_body, dbSelectById, hfind]

theorem get_user_not_found_404_witness :
    get_user 2 ⟨[⟨1, "Ada", "Lovelace", "T"⟩], 2⟩ true =
      (⟨404, errNotFound⟩, ⟨[⟨1, "Ada", "Lovelace", "T"⟩], 2⟩) :=
  get_user_not_found_404 2 ⟨[⟨1, "Ada", "Lovelace", "T"⟩], 2⟩ (by decide)

/-- Claim C2 (counterexample): the JSON body `5` is valid JSON and lacks both
keys, yet the response is 500, not 400 — the membership test
`'first_name' not in 5` raises `TypeError`, caught by the generic handler. -/
theorem create_user_nonobject_body_500_cex :
    (create_user (.returns (some (Json.num 5))) ⟨[], 1⟩ "T" true).1.status = 500 ∧
    (create_user (.returns (some (Json.num 5))) ⟨[], 1⟩ "T" true).1.status ≠ 400 := by
  constructor
  · rfl
  · decide

/-- The bodies on which the missing-field 400 actually fires: `get_json`
returned `None`, or a JSON object lacking `first_name` or `last_name`
(an empty object is falsy and takes the same branch). -/
def lacksRequired (v : Option Json) : Prop :=
  v = none ∨ ∃ fields, v = some (Json.obj fields) ∧
    (pyLookup fields "first_name" = none ∨ pyLookup fields "last_name" = none)

/-- Claim C2 (amended): a malformed body makes `request.get_json` raise, so the
route answers 500 `{error: "Internal server error"}`; when parsing returns
`None` or a JSON object lacking `first_name` or `last_name`, the route answers
400 `{error: "first_name and last_name are required"}` — in both cases with
the table unchanged. (A truthy non-object body such as `5` instead makes the
membership test raise and also yields 500.) -/
theorem create_user_missing_names_amended (db : Db) (now : String) (dbOk : Bool) :
    create_user .raises db now dbOk = (⟨500, errInternal⟩, db) ∧
    ∀ v, lacksRequired v →
      create_user (.returns v) db now dbOk = (⟨400, errRequired⟩, db) := by
  constructor
  · rfl
  · intro v hv
    rcases hv with rfl | ⟨fields, rfl, hmiss⟩
    · rfl
    · cases hemp : fields.isEmpty with
      | true =>
        simp [create_user, create_user_body, pyTruthy, hemp]
      | false =>
        rcases hfn : pyLookup fields "first_name" with _ | v1
        · simp [create_user, create_user_body, pyTruthy, hemp, pyContains, hfn]
        · have hln : pyLookup fields "last_name" = none := by
            rcases hmiss with hmiss | hmiss
            · rw [hfn] at hmiss; exact absurd hmiss (by simp)
            · exact hmiss
          simp [create_user, create_user_body, pyTruthy, hemp, pyContains, hfn, hln]

theorem create_user_missing_names_amended_witness :
    create_user .raises ⟨[], 1⟩ "T" true = (⟨500, errInternal⟩, ⟨[], 1⟩) ∧
    create_user (.returns (some (Json.obj [("first_name", Json.str "Ada")])))
      ⟨[], 1⟩ "T" true = (⟨400, errRequired⟩, ⟨[], 1⟩) :=
  ⟨(create_user_missing_names_amended ⟨[], 1⟩ "T" true).1,
   (create_user_missing_names_amended ⟨[], 1⟩ "T" true).2
     (some (Json.obj [("first_name", Json.str "Ada")]))
     (Or.inr ⟨[("first_name", Json.str "Ada")], rfl, Or.inr rfl⟩)⟩

/-- Claim C3 (counterexample): `GET /users?limit=-1` has effective limit `-1`;
PostgreSQL rejects a negative LIMIT, so the response is 500, not 200. -/
theorem get_all_users_negative_limit_cex :
    get_all_users (some "-1") none ⟨[], 1⟩ true = ⟨500, errInternal⟩ ∧
    (get_all_users (some "-1") none ⟨[], 1⟩ true).status ≠ 200 := by
  constructor
  · rfl
  · decide

/-- Claim C3 (amended): whenever the effective limit and offset (query values
with defaults 10 and 0) are nonnegative and the database is healthy, the
response is 200 with the stored rows ordered by ascending id, skipping the
first `offset` rows and keeping at most `limit` rows, and the envelope echoes
the effective values (including the defaults). Negative effective values make
the SQL statement fail and surface as 500. -/
theorem get_all_users_pagination_amended (limitArg offsetArg : Option String)
    (db : Db)
    (hl : 0 ≤ args_get_int limitArg 10) (ho : 0 ≤ args_get_int offsetArg 0) :
    get_all_users limitArg offsetArg db true =
      ⟨200, Json.obj
        [("users", Json.arr ((((sortById db.rows).drop
              (args_get_int offsetArg 0).toNat).take
              (args_get_int limitArg 10).toNat).map rowJson)),
         ("limit", Json.num (args_get_int limitArg 10)),
         ("offset", Json.num (args_get_int offsetArg 0))]⟩ ∧
    List.Sorted rowLe (sortById db.rows) ∧
    (sortById db.rows).Perm db.rows := by
  refine ⟨?_, List.sorted_insertionSort rowLe db.rows, List.perm_insertionSort rowLe db.rows⟩
  have hcond : ¬(args_get_int limitArg 10 < 0 ∨ args_get_int offsetArg 0 < 0) := by omega
  simp [get_all_users, get_all_users_body, dbSelectPage, hcond]

theorem get_all_users_pagination_amended_witness :
    get_all_users none none ⟨[⟨2, "B", "b", "t2"⟩, ⟨1, "A", "a", "t1"⟩], 3⟩ true =
      ⟨200, Json.obj
        [("users", Json.arr [rowJson ⟨1, "A", "a", "t1"⟩, rowJson ⟨2, "B", "b", "t2"⟩]),
         ("limit", Json.num 10), ("offset", Json.num 0)]⟩ ∧
    List.Sorted rowLe [(⟨1, "A", "a", "t1"⟩ : UserRow), ⟨2, "B", "b", "t2"⟩] ∧
    List.Perm [(⟨1, "A", "a", "t1"⟩ : UserRow), ⟨2, "B", "b", "t2"⟩]
      [⟨2, "B", "b", "t2"⟩, ⟨1, "A", "a", "t1"⟩] :=
  get_all_users_pagination_amended none none
    ⟨[⟨2, "B", "b", "t2"⟩, ⟨1, "A", "a", "t1"⟩], 3⟩ (by decide) (by decide)

/-- Claim C4 (counterexample): `GET /users?limit=abc` succeeds with 200 and the
default limit 10 echoed — werkzeug's typed `args.get` silently falls back to
the default on an unparseable value, so no internal-error response occurs. -/
theorem get_all_users_unparseable_defaults_cex :
    get_all_users (some "abc") none ⟨[], 1⟩ true =
      ⟨200, Json.obj [("users", Json.arr []),
                      ("limit", Json.num 10), ("offset", Json.num 0)]⟩ ∧
    (get_all_users (some "abc") none ⟨[], 1⟩ true).status ≠ 500 := by
  constructor
  · rfl
  · decide

theorem args_get_int_dropUnparseable (value : Option String) (default : Int) :
    args_get_int (dropUnparseable value) default = args_get_int value default := by
  cases value with
  | none => rfl
  | some s =>
    cases hp : pyInt? s <;> simp [dropUnparseable, args_get_int, hp]

/-- Claim C4 (amended): for every GET /users request in which the `limit` or
the `offset` query parameter (or both) is present but not parseable as an
integer, each unparseable value is silently replaced by its default (10 for
`limit`, 0 for `offset`): the request behaves exactly as if that parameter
were absent, the handler does not crash, and — with a healthy database and
nonnegative effective values — it responds 200 echoing the effective
(defaulted) values. -/
theorem get_all_users_unparseable_amended (limitArg offsetArg : Option String)
    (db : Db) (dbOk : Bool)
    (h : (∃ s, limitArg = some s ∧ pyInt? s = none) ∨
         (∃ t, offsetArg = some t ∧ pyInt? t = none)) :
    get_all_users limitArg offsetArg db dbOk =
      get_all_users (dropUnparseable limitArg) (dropUnparseable offsetArg) db dbOk ∧
    (∀ s, limitArg = some s → pyInt? s = none → args_get_int limitArg 10 = 10) ∧
    (∀ t, offsetArg = some t → pyInt? t = none → args_get_int offsetArg 0 = 0) ∧
    (dbOk = true → 0 ≤ args_get_int limitArg 10 → 0 ≤ args_get_int offsetArg 0 →
      (get_all_users limitArg offsetArg db dbOk).status = 200) := by
  refine ⟨?_, ?_, ?_, ?_⟩
  · simp [get_all_users, get_all_users_body, args_get_int_dropUnparseable]
  · intro s hs hnone
    subst hs
    simp [args_get_int, hnone]
  · intro t ht hnone
    subst ht
    simp [args_get_int, hnone]
  · intro hok hl ho
    subst hok
    have hcond : ¬(args_get_int limitArg 10 < 0 ∨ args_get_int offsetArg 0 < 0) := by omega
    simp [get_all_users, get_all_users_body, dbSelectPage, hcond]

theorem get_all_users_unparseable_amended_witness :
    get_all_users (some "abc") (some "5") ⟨[], 1⟩ true =
      get_all_users none (some "5") ⟨[], 1⟩ true ∧
    args_get_int (some "abc") 10 = 10 ∧
    (get_all_users (some "abc") (some "5") ⟨[], 1⟩ true).status = 200 :=
  ⟨(get_all_users_unparseable_amended (some "abc") (some "5") ⟨[], 1⟩ true
      (Or.inl ⟨"abc", rfl, rfl⟩)).1,
   (get_all_users_unparseable_amended (some "abc") (some "5") ⟨[], 1⟩ true
      (Or.inl ⟨"abc", rfl, rfl⟩)).2.1 "abc" rfl rfl,
   (get_all_users_unparseable_amended (some "abc") (some "5") ⟨[], 1⟩ true
      (Or.inl ⟨"abc", rfl, rfl⟩)).2.2.2 rfl (by decide) (by decide)⟩

/-- Every run of the create handler body lands in one of three buckets:
it raises (caught as 500 outside), returns a 400 with the table unchanged, or
— only with a healthy database — returns a 201 having appended exactly one
row and bumped the id counter. -/
theorem create_user_body_outcomes (gj : GetJsonResult) (db : Db) (now : String)
    (dbOk : Bool) :
    (∃ e, create_user_body gj db now dbOk = .error e) ∨
    (∃ msg, create_user_body gj db now dbOk = .ok (⟨400, msg⟩, db)) ∨
    (dbOk = true ∧ ∃ row, create_user_body gj db now dbOk =
        .ok (⟨201, rowJson row⟩, ⟨db.rows ++ [row], db.nextId + 1⟩)) := by
  cases gj with
  | raises => exact Or.inl ⟨.badRequest, rfl⟩
  | returns v =>
    cases v with
    | none => exact Or.inr (Or.inl ⟨errRequired, rfl⟩)
    | some data =>
      cases htr : pyTruthy data with
      | false =>
        refine Or.inr (Or.inl ⟨errRequired, ?_⟩)
        simp [create_user_body, htr]
      | true =>
        cases hc1 : pyContains "first_name" data with
        | error e =>
          refine Or.inl ⟨e, ?_⟩
          simp [create_user_body, htr, hc1]
        | ok b1 =>
          cases b1 with
          | false =>
            refine Or.inr (Or.inl ⟨errRequired, ?_⟩)
            simp [create_user_body, htr, hc1]
          | true =>
            cases hc2 : pyContains "last_name" data with
            | error e =>
              refine Or.inl ⟨e, ?_⟩
              simp [create_user_body, htr, hc1, hc2]
            | ok b2 =>
              cases b2 with
              | false =>
                refine Or.inr (Or.inl ⟨errRequired, ?_⟩)
                simp [create_user_body, htr, hc1, hc2]
              | true =>
                cases hg1 : pyGetItem data "first_name" with
                | error e =>
                  refine Or.inl ⟨e, ?_⟩
                  simp [create_user_body, htr, hc1, hc2, hg1]
                | ok fnj =>
                  cases hs1 : pyStrip fnj with
                  | error e =>
                    refine Or.inl ⟨e, ?_⟩
                    simp [create_user_body, htr, hc1, hc2, hg1, hs1]
                  | ok fn =>
                    cases hg2 : pyGetItem data "last_name" with
                    | error e =>
                      refine Or.inl ⟨e, ?_⟩
                      simp [create_user_body, htr, hc1, hc2, hg1, hs1, hg2]
                    | ok lnj =>
                      cases hs2 : pyStrip lnj with
                      | error e =>
                        refine Or.inl ⟨e, ?_⟩
                        simp [create_user_body, htr, hc1, hc2, hg1, hs1, hg2, hs2]
                      | ok ln =>
                        by_cases hemp : fn = "" ∨ ln = ""
                        · refine Or.inr (Or.inl ⟨errEmpty, ?_⟩)
                          simp [create_user_body, htr, hc1, hc2, hg1, hs1, hg2, hs2, hemp]
                        · cases dbOk with
                          | false =>
                            refine Or.inl ⟨.dbError, ?_⟩
                            simp [create_user_body, htr, hc1, hc2, hg1, hs1, hg2, hs2,
                                  hemp, dbInsertUser]
                          | true =>
                            refine Or.inr (Or.inr ⟨rfl, ⟨db.nextId, fn, ln, now⟩, ?_⟩)
                            simp [create_user_body, htr, hc1, hc2, hg1, hs1, hg2, hs2,
                                  hemp, dbInsertUser]

/-- Claim C5: create inserts exactly one row on success (201) and none on any
validation or database failure; every 500 carries only the generic
`{error: "Internal server error"}` body; with a failing database the request
never succeeds and the table is unchanged. -/
theorem create_user_atomic_insert (gj : GetJsonResult) (db : Db) (now : String)
    (dbOk : Bool) :
    ((create_user gj db now dbOk).1.status = 201 →
      ∃ row, ((create_user gj db now dbOk).2).rows = db.rows ++ [row]) ∧
    ((create_user gj db now dbOk).1.status ≠ 201 → (create_user gj db now dbOk).2 = db) ∧
    ((create_user gj db now dbOk).1.status = 500 →
      (create_user gj db now dbOk).1.body = errInternal) ∧
    (dbOk = false → (create_user gj db now dbOk).2 = db ∧
      ((create_user gj db now dbOk).1.status = 400 ∨
       ((create_user gj db now dbOk).1.status = 500 ∧
        (create_user gj db now dbOk).1.body = errInternal))) := by
  rcases create_user_body_outcomes gj db now dbOk with ⟨e, he⟩ | ⟨msg, he⟩ | ⟨hok, row, he⟩
  · simp [create_user, he]
  · simp [create_user, he]
  · subst hok
    simp [create_user, he]

theorem create_user_atomic_insert_witness :
    (∃ row, ((create_user (.returns (some (Json.obj
        [("first_name", Json.str "Ada"), ("last_name", Json.str "Lovelace")])))
        ⟨[], 1⟩ "T" true).2).rows = [] ++ [row]) ∧
    (create_user (.returns none) ⟨[], 1⟩ "T" true).2 = ⟨[], 1⟩ ∧
    ((create_user (.returns (some (Json.obj
        [("first_name", Json.str "Ada"), ("last_name", Json.str "Lovelace")])))
        ⟨[], 1⟩ "T" false).2 = ⟨[], 1⟩ ∧
      ((create_user (.returns (some (Json.obj
          [("first_name", Json.str "Ada"), ("last_name", Json.str "Lovelace")])))
          ⟨[], 1⟩ "T" false).1.status = 400 ∨
       ((create_user (.returns (some (Json.obj
          [("first_name", Json.str "Ada"), ("last_name", Json.str "Lovelace")])))
          ⟨[], 1⟩ "T" false).1.status = 500 ∧
        (create_user (.returns (some (Json.obj
          [("first_name", Json.str "Ada"), ("last_name", Json.str "Lovelace")])))
          ⟨[], 1⟩ "T" false).1.body = errInternal))) :=
  ⟨(create_user_atomic_insert (.returns (some (Json.obj
      [("first_name", Json.str "Ada"), ("last_name", Json.str "Lovelace")])))
      ⟨[], 1⟩ "T" true).1 rfl,
   (create_user_atomic_insert (.returns none) ⟨[], 1⟩ "T" true).2.1 (by decide),
   (create_user_atomic_insert (.returns (some (Json.obj
      [("first_name", Json.str "Ada"), ("last_name", Json.str "Lovelace")])))
      ⟨[], 1⟩ "T" false).2.2.2 rfl⟩

/-- Claim C8: after a successful create (201), immediately fetching the id
from the creation response returns 200 with exactly the creation response's
body (same id, first_name, last_name, created_at), against the post-create
table. `hwf` is the auto-increment invariant: every stored id is below the
counter. -/
theorem create_then_get_roundtrip (fields : List (String × Json)) (s1 s2 : String)
    (db : Db) (now : String)
    (hwf : ∀ r ∈ db.rows, r.id < db.nextId)
    (h1 : pyLookup fields "first_name" = some (Json.str s1))
    (h2 : pyLookup fields "last_name" = some (Json.str s2))
    (h3 : pyStripStr s1 ≠ "") (h4 : pyStripStr s2 ≠ "") :
    (create_user (.returns (some (Json.obj fields))) db now true).1.status = 201 ∧
    (create_user (.returns (some (Json.obj fields))) db now true).1.body =
      rowJson ⟨db.nextId, pyStripStr s1, pyStripStr s2, now⟩ ∧
    get_user db.nextId (create_user (.returns (some (Json.obj fields))) db now true).2 true =
      (⟨200, (create_user (.returns (some (Json.obj fields))) db now true).1.body⟩,
       (create_user (.returns (some (Json.obj fields))) db now true).2) := by
  have hc := create_user_valid_any fields s1 s2 db now true h1 h2 h3 h4
  rw [if_pos rfl] at hc
  rw [hc]
  refine ⟨rfl, rfl, ?_⟩
  have h5 : db.rows.find? (fun r => r.id == db.nextId) = none :=
    List.find?_eq_none.mpr (fun r hr => by simpa using Int.ne_of_lt (hwf r hr))
  have hfind : (db.rows ++ [(⟨db.nextId, pyStripStr s1, pyStripStr s2, now⟩ : UserRow)]).find?
      (fun r => r.id == db.nextId) = some ⟨db.nextId, pyStripStr s1, pyStripStr s2, now⟩ := by
    rw [List.find?_append, h5]
    simp [List.find?]
  simp [get_user, get_user_body, dbSelectById, hfind]

theorem create_then_get_roundtrip_witness :
    (create_user (.returns (some (Json.obj
        [("first_name", Json.str "Ada"), ("last_name", Json.str "Lovelace")])))
      ⟨[], 1⟩ "T" true).1.status = 201 ∧
    (create_user (.returns (some (Json.obj
        [("first_name", Json.str "Ada"), ("last_name", Json.str "Lovelace")])))
      ⟨[], 1⟩ "T" true).1.body = rowJson ⟨1, "Ada", "Lovelace", "T"⟩ ∧
    get_user 1 (create_user (.returns (some (Json.obj
        [("first_name", Json.str "Ada"), ("last_name", Json.str "Lovelace")])))
      ⟨[], 1⟩ "T" true).2 true =
      (⟨200, (create_user (.returns (some (Json.obj
          [("first_name", Json.str "Ada"), ("last_name", Json.str "Lovelace")])))
        ⟨[], 1⟩ "T" true).1.body⟩,
       (create_user (.returns (some (Json.obj
          [("first_name", Json.str "Ada"), ("last_name", Json.str "Lovelace")])))
        ⟨[], 1⟩ "T" true).2) :=
  create_then_get_roundtrip
    [("first_name", Json.str "Ada"), ("last_name", Json.str "Lovelace")]
    "Ada" "Lovelace" ⟨[], 1⟩ "T" (by simp) rfl rfl (by decide) (by decide)
